import Mathlib

/-
  Verification of the connection/task/transaction coordination layer of
  `lib/database.js` (pg-promise).  The JavaScript source is shallowly
  embedded: promise-returning code is modelled by functions returning
  `Except JSErr _` together with an explicit event trace, asynchronous
  outcomes of external collaborators (connection pool, query executor,
  task executor) are oracles passed as `Except` arguments, and the
  mutable connection context is explicit state.
-/

namespace PgPromise

/-- JavaScript values, restricted to the shapes that `taskProcessor` and
the tag-resolution logic inspect: `undefined`, function values (carrying
their `.name` and optional `.tag` properties), strings and numbers. -/
inductive JSVal where
  | undef : JSVal
  | func (name : String) (tag : Option String) : JSVal
  | str (s : String) : JSVal
  | num (n : Int) : JSVal
deriving DecidableEq, Repr

/-- Models the JavaScript test `typeof v === 'function'`. -/
def JSVal.isFunc : JSVal → Bool
  | .func _ _ => true
  | _ => false

/-- Errors surfaced through rejected promises or synchronous throws:
`TypeError`s, the usage errors thrown by the `connect()` handle, the
cardinality errors of result masking, and opaque external errors coming
from the pool / driver / user callback. -/
inductive JSErr where
  | typeErr (msg : String) : JSErr
  | usageErr (msg : String) : JSErr
  | cardErr (msg : String) : JSErr
  | extErr (code : Nat) : JSErr
deriving DecidableEq, Repr

/-- A physical connection object as handed out by `connect.pool` /
`connect.direct`: an identity plus the `isFresh` flag the pool reports. -/
structure Conn where
  id : Nat
  isFresh : Bool
deriving DecidableEq, Repr

/-- The connection context (`cnContext`).  Only the two fields the claims
depend on are modelled: the bound physical connection `db` (nullable) and
the transaction nesting level `txLevel` (`none` models the JavaScript
`undefined`, i.e. "not inside a transaction"). -/
structure CnContext where
  db : Option Conn
  txLevel : Option Int
deriving DecidableEq, Repr

/-- Modelled from the spec: `cnContext.js` is not under `src/`.  Per the
engine contract (§4.4 steps 3 and 5), the clone created on task entry
inherits the parent's bound connection and nesting level — `taskProcessor`
relies on `taskCtx.db` to detect a connection to reuse and on
`taskCtx.txLevel` to compute the nested depth. -/
def CnContext.clone (ctx : CnContext) : CnContext :=
  { db := ctx.db, txLevel := ctx.txLevel }

/-- Observable effects of a run: a call into the connection acquirer
(`connect.pool`), an invocation of the user-facing executor
(`task.exec` / `query`), and an actual release of a bound connection. -/
inductive Ev where
  | acquirePool : Ev
  | run : Ev
  | release : Ev
deriving DecidableEq, Repr

/-- Modelled from the spec: `cnContext.js` is not under `src/`.
`disconnect` releases the bound connection back (§4.1: "returns the
connection to the pool ... exactly once") when one is bound, and is a
no-op on an unbound context. -/
def CnContext.disconnect (ctx : CnContext) : CnContext × List Ev :=
  match ctx.db with
  | some _ => ({ ctx with db := none }, [Ev.release])
  | none => (ctx, [])

/-- Argument shuffle of `taskProcessor` (database.js:1136-1143): the
callback is `p2` when a second argument is supplied, else `p1`. -/
def resolveCb (p1 p2 : JSVal) : JSVal :=
  if p2 ≠ JSVal.undef then p2 else p1

/-- Tag resolution of `taskProcessor` (database.js:1138-1160): an explicit
tag (`p1` when two arguments are given) wins; otherwise the callback's
attached `.tag`, else its non-empty `.name`, else no tag. -/
def resolveTag (p1 p2 cb : JSVal) : JSVal :=
  let t := if p2 ≠ JSVal.undef then p1 else JSVal.undef
  if t = JSVal.undef then
    match cb with
    | .func name tg =>
      match tg with
      | some s => JSVal.str s
      | none => if name ≠ "" then JSVal.str name else JSVal.undef
    | _ => JSVal.undef
  else t

/-- The `txLevel` update on transaction entry (database.js:1129):
`taskCtx.txLevel = taskCtx.txLevel >= 0 ? (taskCtx.txLevel + 1) : 0`.
In JavaScript `undefined >= 0` is `false`, so an absent level also maps
to `0`. -/
def bumpTxLevel : Option Int → Option Int
  | some n => if 0 ≤ n then some (n + 1) else some 0
  | none => some 0

/-- Observable outcome of one `taskProcessor` invocation: the settled
result of the returned promise, the trace of effects, the cloned
context's `txLevel` after the entry step, and the context handed to
`task.exec` (when execution was reached). -/
structure TPRun where
  result : Except JSErr Nat
  events : List Ev
  taskTxLevel : Option Int
  execCtx : Option CnContext
  tag : JSVal
deriving Repr

/-- Shallow embedding of `taskProcessor` (database.js:1123-1187).
`ctx` is the context of the protocol object the method was invoked on;
`p1, p2` are the call arguments; `isTX` distinguishes `tx` from `task`.
`acquire` is the oracle outcome of `config.$npm.connect.pool(taskCtx)`
(consulted only when the code calls it) and `execOutcome` the oracle
outcome of `config.$npm.task.exec(taskCtx, tsk, isTX, config)`, i.e. the
settled result of running the user callback (with transaction control
around it in tx mode). -/
def taskProcessor (ctx : CnContext) (p1 p2 : JSVal) (isTX : Bool)
    (acquire : Except JSErr Conn) (execOutcome : Except JSErr Nat) : TPRun :=
  -- var taskCtx = ctx.clone();
  let taskCtx0 := ctx.clone
  -- if (isTX) { taskCtx.txLevel = taskCtx.txLevel >= 0 ? taskCtx.txLevel + 1 : 0; }
  let taskCtx1 := if isTX then { taskCtx0 with txLevel := bumpTxLevel taskCtx0.txLevel }
                  else taskCtx0
  -- taskCtx.cb = p1; if (p2 !== undefined) { tag = p1; taskCtx.cb = p2; }
  let cb := resolveCb p1 p2
  -- if (typeof cb !== 'function') return $p.reject(new TypeError(...));
  if cb.isFunc then
    let tag := resolveTag p1 p2 cb
    match taskCtx1.db with
    | some _ =>
      -- reuse existing connection: return task.exec(taskCtx, tsk, isTX, config);
      { result := execOutcome, events := [Ev.run],
        taskTxLevel := taskCtx1.txLevel, execCtx := some taskCtx1, tag := tag }
    | none =>
      -- connection required: connect.pool(taskCtx).then(...).then(...).catch(...)
      match acquire with
      | Except.error e =>
        -- pool rejected: catch runs taskCtx.disconnect() (no-op, nothing bound)
        -- and re-rejects with the pool error
        { result := Except.error e, events := [Ev.acquirePool],
          taskTxLevel := taskCtx1.txLevel, execCtx := none, tag := tag }
      | Except.ok c =>
        -- taskCtx.connect(db); exec; then/catch both run taskCtx.disconnect()
        -- exactly once and pass the settled outcome through unchanged
        { result := execOutcome, events := [Ev.acquirePool, Ev.run, Ev.release],
          taskTxLevel := taskCtx1.txLevel,
          execCtx := some { taskCtx1 with db := some c }, tag := tag }
  else
    { result := Except.error (JSErr.typeErr ("Callback function is required for the "
        ++ (if isTX then "transaction." else "task."))),
      events := [], taskTxLevel := taskCtx1.txLevel, execCtx := none, tag := JSVal.undef }

/-! Result cardinality masking.  `database.js` wires each operation to a
bit-mask (`$npm.result.one`, `$npm.result.many`, `$npm.result.none` and
their bitwise combinations); the masking itself lives in `query.js` /
`result.js`, which are not under `src/`, so it is modelled from the spec
(§3 "Result Cardinality Mask", table of §4.2, properties of §8). -/

/-- Rows are opaque to the masker (only the count matters), so a row is
modelled as a bare `Nat` identity. -/
abbrev Row := Nat

/-- Shaped value produced by the result masker: `null`, a single row, or
an array of rows. -/
inductive MaskOut where
  | nullVal : MaskOut
  | row (r : Row) : MaskOut
  | rows (rs : List Row) : MaskOut
deriving DecidableEq, Repr

/-- The `queryResult` bit flags (ONE = bit 0, MANY = bit 1, NONE = bit 2). -/
def qrOne : Nat := 1

/-- MANY bit of the query-result mask. -/
def qrMany : Nat := 2

/-- NONE bit of the query-result mask. -/
def qrNone : Nat := 4

/-- ANY = ONE | MANY | NONE. -/
def qrAny : Nat := 7

/-- Tests bit `b` of mask `qrm`. -/
def maskBit (qrm b : Nat) : Bool := qrm / 2 ^ b % 2 = 1

/-- Modelled from the spec: the result masker of `query.js` is not under
`src/`.  Per §4.2/§4.3/§8: with NONE allowed, 0 rows shape to `null`;
with ONE allowed, exactly 1 row shapes to that row; with MANY allowed,
1 or more rows shape to the array; every other count rejects with a
cardinality error whose message matches the documented ones. -/
def maskResult (qrm : Nat) (rows : List Row) : Except JSErr MaskOut :=
  match rows with
  | [] =>
    if maskBit qrm 2 then Except.ok MaskOut.nullVal
    else Except.error (JSErr.cardErr "No data returned from the query.")
  | [r] =>
    if maskBit qrm 0 then Except.ok (MaskOut.row r)
    else if maskBit qrm 1 then Except.ok (MaskOut.rows [r])
    else Except.error (JSErr.cardErr "No return data was expected.")
  | _ =>
    if maskBit qrm 1 then Except.ok (MaskOut.rows rows)
    else if maskBit qrm 0 then Except.error (JSErr.cardErr "Multiple rows were not expected.")
    else Except.error (JSErr.cardErr "No return data was expected.")

/-- `singleValue` (database.js:279-286): applies the optional in-line
transformation callback to the resolved value; a missing callback passes
the value through unchanged. -/
def singleValue (value : Except JSErr MaskOut) (cb : Option (MaskOut → MaskOut)) :
    Except JSErr MaskOut :=
  match cb with
  | some f => value.map f
  | none => value

namespace Database

/-- `obj.one` (database.js:391-394): the generic query with mask
`$npm.result.one`, post-processed by `singleValue`.  The query's raw
row-set is the `rows` argument. -/
def one (rows : List Row) (cb : Option (MaskOut → MaskOut)) : Except JSErr MaskOut :=
  singleValue (maskResult qrOne rows) cb

end Database

/-- Outcome of `self.query` on a handle produced by `Database.connect`
(database.js:177-182): the settled result and whether the call was
dispatched to `config.$npm.query` (hence to the driver) at all. -/
structure ConnQueryRun where
  result : Except JSErr MaskOut
  dispatched : Bool
deriving Repr

/-- `self.query` of `Database.connect` (database.js:177-182): throws a
usage error when the context holds no bound connection, before any
dispatch; otherwise forwards to the generic query executor, whose raw
row-set outcome is the oracle `driver`, shaped by `maskResult`. -/
def connSelfQuery (ctx : CnContext) (qrm : Nat) (driver : Except JSErr (List Row)) :
    ConnQueryRun :=
  match ctx.db with
  | none =>
    { result := Except.error (JSErr.usageErr "Cannot execute a query on a disconnected client."),
      dispatched := false }
  | some _ =>
    match driver with
    | Except.error e => { result := Except.error e, dispatched := true }
    | Except.ok rows => { result := maskResult qrm rows, dispatched := true }

/-- `self.done` of `Database.connect` (database.js:184-189): throws a
usage error when the context holds no bound connection; otherwise
releases via `ctx.disconnect()`. -/
def connDone (ctx : CnContext) : Except JSErr (CnContext × List Ev) :=
  match ctx.db with
  | none => Except.error (JSErr.usageErr "Cannot invoke done() on a disconnected client.")
  | some _ => Except.ok ctx.disconnect

/-! Protocol extender locking.  The call sequence is `extend`
(database.js:1189-1197): lock the object non-permanently, invoke the
external `extend` event hook once, then lock permanently.  The lock
semantics (`utils.lock`) and the hook (`events.extend`) are not under
`src/` and are modelled from the spec (§4.2): a non-permanent lock makes
every existing property non-overwritable while the object stays open to
additions; the permanent lock freezes the object entirely. -/

/-- A protocol object: its properties (values stand for the identity of
the attached operation closures), which property names are locked
read-only, and whether the object is frozen against additions. -/
structure ProtoObj where
  props : String → Option Nat
  readonly : String → Bool
  frozen : Bool

/-- Modelled from the spec: defining/overwriting a property fails on a
frozen object and on a read-only name, and otherwise updates the map. -/
def ProtoObj.setProp (o : ProtoObj) (n : String) (v : Nat) : Option ProtoObj :=
  if o.frozen then none
  else if o.readonly n then none
  else some { o with props := fun m => if m = n then some v else o.props m }

/-- One attempted property definition; a failing attempt leaves the
object unchanged. -/
def attachStep (o : ProtoObj) (p : String × Nat) : ProtoObj :=
  match o.setProp p.1 p.2 with
  | some o2 => o2
  | none => o

/-- A sequence of attempted property definitions. -/
def attachAll (o : ProtoObj) (adds : List (String × Nat)) : ProtoObj :=
  adds.foldl attachStep o

/-- Modelled from the spec: `utils.lock(obj, permanent, options)` — the
non-permanent form makes all current properties read-only, the permanent
form additionally freezes the object. -/
def lock (o : ProtoObj) (permanent : Bool) : ProtoObj :=
  if permanent then
    { o with readonly := fun n => (o.props n).isSome, frozen := true }
  else
    { o with readonly := fun n => (o.props n).isSome }

/-- The built-in operations attached by `extend` (database.js:324-1119),
with distinct values standing for their closures' identities. -/
def builtinOps : List (String × Nat) :=
  [("none", 0), ("one", 1), ("many", 2), ("oneOrNone", 3), ("manyOrNone", 4),
   ("any", 5), ("result", 6), ("stream", 7), ("func", 8), ("proc", 9),
   ("map", 10), ("each", 11), ("task", 12), ("tx", 13)]

/-- The protocol object right after all built-in operations have been
attached, before any locking. -/
def baseProtocol : ProtoObj :=
  attachAll { props := fun _ => none, readonly := fun _ => false, frozen := false } builtinOps

/-- Outcome of running `extend`: the final object and how many times the
external extension hook was invoked. -/
structure ExtendRun where
  obj : ProtoObj
  hookCalls : Nat

/-- The tail of `extend` (database.js:1189-1197): lock the object with
all built-ins attached, let the external hook attempt its additions
(`hookAdds`), then lock permanently. -/
def extendProtocol (hookAdds : List (String × Nat)) : ExtendRun :=
  let o2 := lock baseProtocol false
  let o3 := attachAll o2 hookAdds
  { obj := lock o3 true, hookCalls := 1 }

theorem attachStep_cases (o : ProtoObj) (p : String × Nat) :
    attachStep o p = o ∨
    (o.frozen = false ∧ o.readonly p.1 = false ∧
      attachStep o p = { o with props := fun m => if m = p.1 then some p.2 else o.props m }) := by
  unfold attachStep ProtoObj.setProp
  cases hf : o.frozen
  · cases hr : o.readonly p.1
    · right
      exact ⟨rfl, rfl, by simp [hf, hr]⟩
    · left
      simp [hf, hr]
  · left
    simp [hf]

theorem attachStep_preserves (o : ProtoObj) (p : String × Nat) (b : String)
    (hb : o.readonly b = true) :
    (attachStep o p).props b = o.props b ∧
    (attachStep o p).readonly = o.readonly ∧
    (attachStep o p).frozen = o.frozen := by
  rcases attachStep_cases o p with h | ⟨hf, hr, h⟩
  · rw [h]
    exact ⟨rfl, rfl, rfl⟩
  · rw [h]
    refine ⟨?_, rfl, rfl⟩
    have hne : b ≠ p.1 := by
      intro he
      rw [he, hr] at hb
      exact Bool.false_ne_true hb
    simp [hne]

theorem attachAll_preserves (adds : List (String × Nat)) (o : ProtoObj) (b : String)
    (hb : o.readonly b = true) :
    (attachAll o adds).props b = o.props b ∧
    (attachAll o adds).readonly = o.readonly ∧
    (attachAll o adds).frozen = o.frozen := by
  induction adds generalizing o with
  | nil => exact ⟨rfl, rfl, rfl⟩
  | cons p rest ih =>
    have hs := attachStep_preserves o p b hb
    have hb' : (attachStep o p).readonly b = true := by rw [hs.2.1]; exact hb
    have ih' := ih (attachStep o p) hb'
    have hfold : attachAll o (p :: rest) = attachAll (attachStep o p) rest := rfl
    refine ⟨?_, ?_, ?_⟩
    · rw [hfold, ih'.1, hs.1]
    · rw [hfold, ih'.2.1, hs.2.1]
    · rw [hfold, ih'.2.2, hs.2.2]

/-! Duplicate-registration guard (`checkForDuplicates`,
database.js:1204-1214): the process-wide registry is keyed by
`JSON.stringify(cn)`; a key already present triggers a console warning
(unless `noWarnings`), an absent key is registered. -/

/-- One call of `checkForDuplicates`: returns the updated registry and
the number of warnings emitted (0 or 1). -/
def checkForDuplicates (reg : List String) (cnKey : String) (noWarnings : Bool) :
    List String × Nat :=
  if cnKey ∈ reg then (reg, if noWarnings then 0 else 1)
  else (cnKey :: reg, 0)

/-- A sequence of top-level handle creations against one process-wide
registry, returning the final registry and the total warning count. -/
def runCreations (reg : List String) (keys : List String) (noWarnings : Bool) :
    List String × Nat :=
  match keys with
  | [] => (reg, 0)
  | k :: rest =>
    let r := checkForDuplicates reg k noWarnings
    let rr := runCreations r.1 rest noWarnings
    (rr.1, r.2 + rr.2)

theorem checkForDuplicates_snd_noWarn (reg : List String) (k : String) :
    (checkForDuplicates reg k true).2 = 0 := by
  unfold checkForDuplicates
  split <;> rfl

theorem runCreations_noWarn (reg : List String) (keys : List String) :
    (runCreations reg keys true).2 = 0 := by
  induction keys generalizing reg with
  | nil => rfl
  | cons k rest ih =>
    show (checkForDuplicates reg k true).2 +
      (runCreations (checkForDuplicates reg k true).1 rest true).2 = 0
    rw [checkForDuplicates_snd_noWarn, ih]

/-- All branches of `taskProcessor` record the cloned context's `txLevel`
as computed by the entry step (database.js:1128-1130). -/
theorem taskProcessor_taskTxLevel (ctx : CnContext) (p1 p2 : JSVal) (isTX : Bool)
    (acquire : Except JSErr Conn) (execOutcome : Except JSErr Nat) :
    (taskProcessor ctx p1 p2 isTX acquire execOutcome).taskTxLevel =
      (if isTX then bumpTxLevel ctx.txLevel else ctx.txLevel) := by
  unfold taskProcessor
  cases isTX <;>
    cases h : (resolveCb p1 p2).isFunc <;>
      cases hdb : ctx.db <;>
        cases acquire <;>
          simp [CnContext.clone, h, hdb]

/-- C1: for every task/tx invocation where the engine itself acquires the
connection (the calling context held no bound connection and the callback
is valid), the trace is acquire, then the callback run, then exactly one
release after the callback settles — on both paths — and the returned
future settles exactly as the callback did, so a failing callback rejects
the invocation with the original error. -/
theorem C1_engine_acquire_release_once (ctx : CnContext) (p1 p2 : JSVal) (isTX : Bool)
    (c : Conn) (execOutcome : Except JSErr Nat)
    (hdb : ctx.db = none) (hcb : (resolveCb p1 p2).isFunc = true) :
    (taskProcessor ctx p1 p2 isTX (Except.ok c) execOutcome).events =
      [Ev.acquirePool, Ev.run, Ev.release] ∧
    (taskProcessor ctx p1 p2 isTX (Except.ok c) execOutcome).result = execOutcome := by
  cases isTX <;> simp [taskProcessor, CnContext.clone, hcb, hdb]

/-- Witness for C1 at a concrete failing callback outcome: the trace is
acquire, run, release, and the rejection carries the original error. -/
theorem C1_witness :
    (taskProcessor ⟨none, none⟩ (JSVal.func "f" none) JSVal.undef false
        (Except.ok ⟨1, true⟩) (Except.error (JSErr.extErr 7))).events =
      [Ev.acquirePool, Ev.run, Ev.release] ∧
    (taskProcessor ⟨none, none⟩ (JSVal.func "f" none) JSVal.undef false
        (Except.ok ⟨1, true⟩) (Except.error (JSErr.extErr 7))).result =
      Except.error (JSErr.extErr 7) :=
  C1_engine_acquire_release_once ⟨none, none⟩ (JSVal.func "f" none) JSVal.undef false
    ⟨1, true⟩ (Except.error (JSErr.extErr 7)) rfl (by decide)

/-- C2: on every transaction invocation the cloned context's nesting
level is set on entry to 0 when the inherited level is absent or
negative, and to the inherited level plus one when it is an integer
greater than or equal to 0. -/
theorem C2_tx_nesting_level (ctx : CnContext) (p1 p2 : JSVal)
    (acquire : Except JSErr Conn) (execOutcome : Except JSErr Nat) :
    (ctx.txLevel = none →
      (taskProcessor ctx p1 p2 true acquire execOutcome).taskTxLevel = some 0) ∧
    (∀ n : Int, ctx.txLevel = some n → n < 0 →
      (taskProcessor ctx p1 p2 true acquire execOutcome).taskTxLevel = some 0) ∧
    (∀ n : Int, ctx.txLevel = some n → 0 ≤ n →
      (taskProcessor ctx p1 p2 true acquire execOutcome).taskTxLevel = some (n + 1)) := by
  refine ⟨?_, ?_, ?_⟩
  · intro h
    rw [taskProcessor_taskTxLevel]
    simp [bumpTxLevel, h]
  · intro n h hneg
    rw [taskProcessor_taskTxLevel]
    simp [bumpTxLevel, h, not_le.mpr hneg]
  · intro n h hpos
    rw [taskProcessor_taskTxLevel]
    simp [bumpTxLevel, h, hpos]

/-- Witness for C2 at concrete inherited levels: absent becomes 0 and
level 2 becomes 3. -/
theorem C2_witness :
    (taskProcessor ⟨none, none⟩ (JSVal.func "f" none) JSVal.undef true
        (Except.ok ⟨1, true⟩) (Except.ok 0)).taskTxLevel = some 0 ∧
    (taskProcessor ⟨none, some 2⟩ (JSVal.func "f" none) JSVal.undef true
        (Except.ok ⟨1, true⟩) (Except.ok 0)).taskTxLevel = some (2 + 1) :=
  ⟨(C2_tx_nesting_level ⟨none, none⟩ (JSVal.func "f" none) JSVal.undef
      (Except.ok ⟨1, true⟩) (Except.ok 0)).1 rfl,
   (C2_tx_nesting_level ⟨none, some 2⟩ (JSVal.func "f" none) JSVal.undef
      (Except.ok ⟨1, true⟩) (Except.ok 0)).2.2 2 rfl (by decide)⟩

/-- C4: when the resolved callback argument is not a function, the
invocation fails with a `TypeError` and produces no effect at all — in
particular the connection acquirer is never called. -/
theorem C4_invalid_callback (ctx : CnContext) (p1 p2 : JSVal) (isTX : Bool)
    (acquire : Except JSErr Conn) (execOutcome : Except JSErr Nat)
    (hcb : (resolveCb p1 p2).isFunc = false) :
    (taskProcessor ctx p1 p2 isTX acquire execOutcome).result =
      Except.error (JSErr.typeErr ("Callback function is required for the "
        ++ (if isTX then "transaction." else "task."))) ∧
    (taskProcessor ctx p1 p2 isTX acquire execOutcome).events = [] := by
  cases isTX <;> simp [taskProcessor, hcb]

/-- Witness for C4 at a concrete non-function callback (a string). -/
theorem C4_witness :
    (taskProcessor ⟨none, none⟩ (JSVal.str "oops") JSVal.undef true
        (Except.ok ⟨1, true⟩) (Except.ok 0)).result =
      Except.error (JSErr.typeErr "Callback function is required for the transaction.") ∧
    (taskProcessor ⟨none, none⟩ (JSVal.str "oops") JSVal.undef true
        (Except.ok ⟨1, true⟩) (Except.ok 0)).events = [] :=
  C4_invalid_callback ⟨none, none⟩ (JSVal.str "oops") JSVal.undef true
    (Except.ok ⟨1, true⟩) (Except.ok 0) (by decide)

/-- C5: when the calling context already holds a bound connection, the
engine reuses it: the only effect is running the callback (no acquisition,
no release by this invocation), the execution context carries the very
same connection, and the result passes through. -/
theorem C5_reuse_bound_connection (ctx : CnContext) (p1 p2 : JSVal) (isTX : Bool)
    (acquire : Except JSErr Conn) (execOutcome : Except JSErr Nat) (c : Conn)
    (hdb : ctx.db = some c) (hcb : (resolveCb p1 p2).isFunc = true) :
    (taskProcessor ctx p1 p2 isTX acquire execOutcome).events = [Ev.run] ∧
    (∃ tc, (taskProcessor ctx p1 p2 isTX acquire execOutcome).execCtx = some tc ∧
      tc.db = some c) ∧
    (taskProcessor ctx p1 p2 isTX acquire execOutcome).result = execOutcome := by
  cases isTX <;> simp [taskProcessor, CnContext.clone, hcb, hdb]

/-- Witness for C5 at a concrete bound connection: no acquire/release
events, and the execution context holds the inherited connection. -/
theorem C5_witness :
    (taskProcessor ⟨some ⟨3, false⟩, some 0⟩ (JSVal.func "f" none) JSVal.undef true
        (Except.error (JSErr.extErr 9)) (Except.ok 42)).events = [Ev.run] ∧
    (∃ tc, (taskProcessor ⟨some ⟨3, false⟩, some 0⟩ (JSVal.func "f" none) JSVal.undef true
        (Except.error (JSErr.extErr 9)) (Except.ok 42)).execCtx = some tc ∧
      tc.db = some ⟨3, false⟩) ∧
    (taskProcessor ⟨some ⟨3, false⟩, some 0⟩ (JSVal.func "f" none) JSVal.undef true
        (Except.error (JSErr.extErr 9)) (Except.ok 42)).result = Except.ok 42 :=
  C5_reuse_bound_connection ⟨some ⟨3, false⟩, some 0⟩ (JSVal.func "f" none) JSVal.undef true
    (Except.error (JSErr.extErr 9)) (Except.ok 42) ⟨3, false⟩ rfl (by decide)

/-- C10: a plain (non-transaction) task invocation leaves the cloned
context's transaction nesting level exactly as inherited from the parent
context. -/
theorem C10_task_preserves_txLevel (ctx : CnContext) (p1 p2 : JSVal)
    (acquire : Except JSErr Conn) (execOutcome : Except JSErr Nat) :
    (taskProcessor ctx p1 p2 false acquire execOutcome).taskTxLevel = ctx.txLevel := by
  rw [taskProcessor_taskTxLevel]
  simp

/-- C3: invoking an operation on a `connect()` handle after its
connection has been released rejects immediately with the usage error,
with no dispatch to the driver. -/
theorem C3_released_handle_rejects (ctx : CnContext) (c : Conn) (qrm : Nat)
    (driver : Except JSErr (List Row)) (h : ctx.db = some c) :
    connSelfQuery (ctx.disconnect).1 qrm driver =
      { result := Except.error (JSErr.usageErr "Cannot execute a query on a disconnected client."),
        dispatched := false } := by
  simp [CnContext.disconnect, h, connSelfQuery]

/-- Witness for C3 at a concrete connected-then-released handle. -/
theorem C3_witness :
    connSelfQuery ((⟨some ⟨2, true⟩, none⟩ : CnContext).disconnect).1 qrOne (Except.ok [5]) =
      { result := Except.error (JSErr.usageErr "Cannot execute a query on a disconnected client."),
        dispatched := false } :=
  C3_released_handle_rejects ⟨some ⟨2, true⟩, none⟩ ⟨2, true⟩ qrOne (Except.ok [5]) rfl

/-- C6: for every row count, `one` resolves with the single row exactly
when the count is 1, and rejects with a cardinality error when the count
is 0 or greater than 1. -/
theorem C6_one_exact_cardinality (rows : List Row) :
    ((∃ r, Database.one rows none = Except.ok (MaskOut.row r) ∧ rows = [r]) ↔
      rows.length = 1) ∧
    (rows.length ≠ 1 →
      ∃ m, Database.one rows none = Except.error (JSErr.cardErr m)) := by
  constructor
  · constructor
    · rintro ⟨r, -, rfl⟩
      rfl
    · intro h
      obtain ⟨r, hr⟩ := List.length_eq_one.mp h
      subst hr
      exact ⟨r, by simp [Database.one, singleValue, maskResult, qrOne, maskBit], rfl⟩
  · intro h
    match rows, h with
    | [], _ =>
      exact ⟨"No data returned from the query.",
        by simp [Database.one, singleValue, maskResult, qrOne, maskBit]⟩
    | r1 :: r2 :: rest, _ =>
      exact ⟨"Multiple rows were not expected.",
        by simp [Database.one, singleValue, maskResult, qrOne, maskBit]⟩

/-- Witness for C6: one row resolves with it, zero rows reject. -/
theorem C6_witness :
    (∃ r, Database.one [7] none = Except.ok (MaskOut.row r) ∧ [7] = [r]) ∧
    (∃ m, Database.one ([] : List Row) none = Except.error (JSErr.cardErr m)) :=
  ⟨(C6_one_exact_cardinality [7]).1.mpr rfl,
   (C6_one_exact_cardinality []).2 (by decide)⟩

/-- C8: releasing a connected handle succeeds with exactly one release
event, and calling `done()` again on the now-released context fails
loudly with a usage error instead of silently releasing a second time. -/
theorem C8_done_double_release_fails (ctx : CnContext) (c : Conn) (h : ctx.db = some c) :
    ∃ ctx', connDone ctx = Except.ok (ctx', [Ev.release]) ∧ ctx'.db = none ∧
      connDone ctx' =
        Except.error (JSErr.usageErr "Cannot invoke done() on a disconnected client.") := by
  refine ⟨{ ctx with db := none }, ?_, rfl, rfl⟩
  simp [connDone, CnContext.disconnect, h]

/-- Witness for C8 at a concrete connected context. -/
theorem C8_witness :
    ∃ ctx', connDone ⟨some ⟨4, false⟩, none⟩ = Except.ok (ctx', [Ev.release]) ∧
      ctx'.db = none ∧
      connDone ctx' =
        Except.error (JSErr.usageErr "Cannot invoke done() on a disconnected client.") :=
  C8_done_double_release_fails ⟨some ⟨4, false⟩, none⟩ ⟨4, false⟩ rfl

/-- C7: for every list of attempted hook additions, the extension hook is
invoked exactly once, after construction completes no property of the
protocol object can be added or overwritten, and no built-in operation's
identity was changed by the hook (the object was locked before the hook
ran). -/
theorem C7_extend_lock (hookAdds : List (String × Nat)) (n : String) (v : Nat) :
    (extendProtocol hookAdds).hookCalls = 1 ∧
    ProtoObj.setProp (extendProtocol hookAdds).obj n v = none ∧
    (∀ b, (baseProtocol.props b).isSome = true →
      (extendProtocol hookAdds).obj.props b = baseProtocol.props b) := by
  refine ⟨rfl, ?_, ?_⟩
  · show ProtoObj.setProp (lock (attachAll (lock baseProtocol false) hookAdds) true) n v = none
    unfold ProtoObj.setProp lock
    simp
  · intro b hbprops
    have hb : (lock baseProtocol false).readonly b = true := by
      simp [lock, hbprops]
    have h := attachAll_preserves hookAdds (lock baseProtocol false) b hb
    show (lock (attachAll (lock baseProtocol false) hookAdds) true).props b = baseProtocol.props b
    have hl : (lock (attachAll (lock baseProtocol false) hookAdds) true).props b =
        (attachAll (lock baseProtocol false) hookAdds).props b := by
      simp [lock]
    rw [hl, h.1]
    simp [lock]

/-- Witness for C7 with a concrete hook addition: the hook ran once, the
final object rejects any further definition, and the built-in `one` kept
its identity. -/
theorem C7_witness :
    (extendProtocol [("custom", 99)]).hookCalls = 1 ∧
    ProtoObj.setProp (extendProtocol [("custom", 99)]).obj "one" 5 = none ∧
    (extendProtocol [("custom", 99)]).obj.props "one" = baseProtocol.props "one" :=
  ⟨(C7_extend_lock [("custom", 99)] "one" 5).1,
   (C7_extend_lock [("custom", 99)] "one" 5).2.1,
   (C7_extend_lock [("custom", 99)] "one" 5).2.2 "one" (by decide)⟩

/-- C9 counterexample: three creations for the same connection target
(one distinct target) emit two warnings, not at most one per distinct
target. -/
theorem C9_counterexample :
    (runCreations [] ["a", "a", "a"] false).2 = 2 ∧
    (["a", "a", "a"] : List String).dedup = ["a"] ∧
    ¬ (runCreations [] ["a", "a", "a"] false).2 ≤ 1 := by decide

/-- C9 (amended): a creation for an already-registered target emits one
warning every time (suppressed by `noWarnings`), an unregistered target
is registered silently, and with `noWarnings` set no sequence of
creations ever warns; the guard never blocks or fails a creation. -/
theorem C9_duplicate_guard (reg : List String) (k : String) (noWarnings : Bool)
    (keys : List String) :
    (k ∈ reg → checkForDuplicates reg k noWarnings = (reg, if noWarnings then 0 else 1)) ∧
    (k ∉ reg → checkForDuplicates reg k noWarnings = (k :: reg, 0)) ∧
    (runCreations reg keys true).2 = 0 := by
  refine ⟨?_, ?_, runCreations_noWarn reg keys⟩
  · intro h
    simp [checkForDuplicates, h]
  · intro h
    simp [checkForDuplicates, h]

/-- Witness for C9 (amended): a registered key warns, a fresh key is
registered without warning. -/
theorem C9_witness :
    checkForDuplicates ["a"] "a" false = (["a"], 1) ∧
    checkForDuplicates ["a"] "b" false = (["b", "a"], 0) :=
  ⟨(C9_duplicate_guard ["a"] "a" false []).1 (by decide),
   (C9_duplicate_guard ["a"] "b" false []).2.1 (by decide)⟩

end PgPromise
